import Mathlib

/-!
Shallow embedding of the message-view logic of
`src/Telegram/SourceFiles/history/view/history_view_element.cpp` and the
wizard-step accessor of `src/Telegram/SourceFiles/intro/introwidget.h`,
with theorems checking the natural-language specification against it.

Machine integers that matter (dates in seconds) are modelled as `Int`;
the element's flag bitmask is modelled as a structure with one `Bool`
field per flag bit used in the excerpt.  Effects on the surrounding
application (repaint requests, pending-resize marks) are returned
explicitly by the operations that emit them.
-/

namespace HistoryView

/-- A point in time as carried by a `HistoryItem`: `secs` is the absolute
time in seconds (what `QDateTime::secsTo` differences), `day` is the
calendar date (what `QDateTime::date()` compares). -/
structure ItemDate where
  secs : Int
  day : Int
deriving DecidableEq, Repr

/-- The state of the underlying `HistoryItem` as far as the excerpt reads
or writes it.  `dateComponent` is the `HistoryMessageDate` component
(`Has<HistoryMessageDate>()` is `isSome`; `AddComponents` followed by
`init(item->date)` stores the item's date; `RemoveComponents` clears it).
`hasUnreadBar` is `Has<HistoryMessageUnreadBar>()`, `hasForwarded` is
`Has<HistoryMessageForwarded>()`, `peerIsSelf` is
`history()->peer->isSelf()`, `groupId` is `groupId()` (null = `none`),
`mediaTag` identifies `media()` (null = `none`). -/
structure HistoryItem where
  dateComponent : Option ItemDate
  hasUnreadBar : Bool
  hasForwarded : Bool
  itemIsPost : Bool
  serviceMsg : Bool
  itemIsEmpty : Bool
  date : ItemDate
  senderOriginal : Nat
  fromId : Nat
  peerIsSelf : Bool
  groupId : Option Nat
  mediaTag : Option Nat
deriving DecidableEq, Repr

/-- `kAttachMessageToPreviousSecondsDelta` from the source: a new message
from the same sender is attached to previous within 15 minutes. -/
def kAttachMessageToPreviousSecondsDelta : Int := 900

/-- `Element::computeIsAttachToPrevious`, translated from the source.
`item` is the element's own item (`data()`), `prev` the previous
element's item (`previous->data()`). -/
def computeIsAttachToPrevious (item prev : HistoryItem) : Bool :=
  if !item.dateComponent.isSome && !item.hasUnreadBar then
    let possible := !item.itemIsPost && !prev.itemIsPost
      && !item.serviceMsg && !prev.serviceMsg
      && !item.itemIsEmpty && !prev.itemIsEmpty
      && ((item.date.secs - prev.date.secs).natAbs
        < kAttachMessageToPreviousSecondsDelta.toNat)
    if possible then
      if item.peerIsSelf then
        decide (prev.senderOriginal = item.senderOriginal)
          && (prev.hasForwarded == item.hasForwarded)
      else
        decide (prev.fromId = item.fromId)
    else
      false
  else
    false

/-- The specification's condition for attach-to-previous, written from the
claim's words (not from the source): the element's item has neither a
date nor an unread-bar component, both items are non-post, non-service,
non-empty, the absolute difference of dates is strictly below 900
seconds, and the sender condition holds (same `senderOriginal` and same
forwarded flag in a self-chat, otherwise same `from()`). -/
def AttachToPreviousSpec (item prev : HistoryItem) : Prop :=
  item.dateComponent = none ∧ item.hasUnreadBar = false ∧
  item.itemIsPost = false ∧ prev.itemIsPost = false ∧
  item.serviceMsg = false ∧ prev.serviceMsg = false ∧
  item.itemIsEmpty = false ∧ prev.itemIsEmpty = false ∧
  (item.date.secs - prev.date.secs).natAbs < 900 ∧
  (if item.peerIsSelf then
    prev.senderOriginal = item.senderOriginal ∧
      prev.hasForwarded = item.hasForwarded
  else
    prev.fromId = item.fromId)

/-- The element's `_flags` bitmask: one `Bool` per flag bit that the
excerpt reads or writes. -/
structure Flags where
  needsResize : Bool
  attachedToPrevious : Bool
  attachedToNext : Bool
  hiddenByGroup : Bool
deriving DecidableEq, Repr

/-- The `Group` component of an element: the group's id, its leader
element, and (for the leader) the other elements of the group. Elements
are identified by a `Nat` standing for the pointer. -/
structure Group where
  groupId : Nat
  leader : Nat
  others : List Nat
deriving DecidableEq, Repr

/-- A media view held by an element: either an ordinary view (`base`) or
a `HistoryGroupedMedia` view over the other elements of a group. -/
inductive Media where
  | base (tag : Nat)
  | grouped (parent : Nat) (others : List Nat)
deriving DecidableEq, Repr

/-- Modelled from the spec: `HistoryMedia::takeLastFromGroup` is declared
outside the excerpt. A grouped view (an album) yields one ordinary view
back; other media yield null. Its exact result never matters to the
claims, only whether it is null. -/
def Media.takeLastFromGroup : Media → Option Media
  | Media.grouped parent _ => some (Media.base parent)
  | Media.base _ => none

/-- Modelled from the spec: `HistoryMedia::applyGroup` is declared outside
the excerpt. A grouped view (a "cluster of consecutive media items
rendered as one album") can apply a non-empty group by updating its
element list; any other media cannot apply a group. `none` models
`applyGroup` returning false. -/
def Media.applyGroup : Media → List Nat → Option Media
  | Media.grouped parent _, others =>
      if others.isEmpty then none else some (Media.grouped parent others)
  | Media.base _, _ => none

/-- The state of one `Element`: `id` stands for the `this` pointer,
`item` for `_data`, `flags` for `_flags`, `group` for the optional
`Group` component, `media` for `_media`. -/
structure Element where
  id : Nat
  item : HistoryItem
  flags : Flags
  group : Option Group
  media : Option Media
deriving DecidableEq, Repr

/-- `Element::isHiddenByGroup`. -/
def Element.isHiddenByGroup (e : Element) : Bool := e.flags.hiddenByGroup

/-- `Element::isAttachedToPrevious`. -/
def Element.isAttachedToPrevious (e : Element) : Bool := e.flags.attachedToPrevious

/-- `Element::isAttachedToNext`. -/
def Element.isAttachedToNext (e : Element) : Bool := e.flags.attachedToNext

/-- `Element::setPendingResize`: sets the `NeedsResize` flag (notifying
the history in `Context::History` is outside the modelled state). -/
def Element.setPendingResize (e : Element) : Element :=
  { e with flags := { e.flags with needsResize := true } }

/-- `Element::initGroup`: if the item has a non-null `groupId`, add a
`Group` component with that id, led by the element itself. -/
def Element.initGroup (e : Element) : Element :=
  match e.item.groupId with
  | some gid =>
      { e with group := some { groupId := gid, leader := e.id, others := [] } }
  | none => e

/-- The `Element` constructor: stores the item, creates a media view when
the item has media, and runs `initGroup` (registering the view with the
session data is outside the modelled state). -/
def Element.construct (n : Nat) (data : HistoryItem) : Element :=
  Element.initGroup
    { id := n
      item := data
      flags :=
        { needsResize := false, attachedToPrevious := false,
          attachedToNext := false, hiddenByGroup := false }
      group := none
      media := data.mediaTag.map Media.base }

/-- `Element::makeGroupMember(leader)`, translated from the source. When
the `Group` component is missing (the `Assert` would fire) the state is
returned unchanged. -/
def Element.makeGroupMember (e : Element) (leader : Nat) : Element :=
  match e.group with
  | none => e
  | some group =>
    if group.leader = e.id then
      let media :=
        match e.media.bind Media.takeLastFromGroup with
        | some single => some single
        | none => e.media
      { e with
        media := media
        flags := { e.flags with hiddenByGroup := true }
        group := some { group with leader := leader, others := [] } }
    else if group.leader ≠ leader then
      { e with group := some { group with leader := leader } }
    else
      e

/-- `Element::resetGroupMedia(others)`: a non-empty group becomes a
`HistoryGroupedMedia` view over the others; otherwise the media collapses
back to its last single view. -/
def Element.resetGroupMedia (e : Element) (others : List Nat) : Element :=
  if !others.isEmpty then
    { e with media := some (Media.grouped e.id others) }
  else
    match e.media with
    | some m => { e with media := m.takeLastFromGroup }
    | none => e

/-- `Element::makeGroupLeader(others)`, translated from the source. When
the `Group` component is missing (the `Assert` would fire) the state is
returned unchanged. -/
def Element.makeGroupLeader (e : Element) (others : List Nat) : Element :=
  match e.group with
  | none => e
  | some group =>
    let e1 : Element :=
      if group.leader ≠ e.id then
        { e with flags := { e.flags with hiddenByGroup := false } }
      else e
    let e2 : Element :=
      { e1 with group := some { group with leader := e.id, others := others } }
    match e2.media.bind (Media.applyGroup · others) with
    | some applied => { e2 with media := some applied }
    | none => e2.resetGroupMedia others

/-- `Element::setDisplayDate(displayDate)`, returning the new state and
whether `setPendingResize` was called. -/
def Element.setDisplayDate (e : Element) (displayDate : Bool) : Element × Bool :=
  if displayDate && !e.item.dateComponent.isSome then
    (Element.setPendingResize
      { e with item := { e.item with dateComponent := some e.item.date } }, true)
  else if !displayDate && e.item.dateComponent.isSome then
    (Element.setPendingResize
      { e with item := { e.item with dateComponent := none } }, true)
  else
    (e, false)

/-- `Element::recountDisplayDateInBlocks`, with the result of
`previousInBlocks()` passed explicitly (`none` = no previous element in
blocks). Returns the new state and whether `setPendingResize` was
called. -/
def Element.recountDisplayDateInBlocks (e : Element) (previous : Option Element) :
    Element × Bool :=
  e.setDisplayDate
    (if e.item.itemIsEmpty then false
     else
       match previous with
       | some p => p.item.itemIsEmpty || decide (p.item.date.day ≠ e.item.date.day)
       | none => true)

/-- The specification's condition for the date separator, written from
the claim's words (not from the source): the item is non-empty and either
there is no previous element in blocks, or the previous item is empty, or
the previous item's calendar date differs from this item's. -/
def DisplayDateSpec (e : Element) (previous : Option Element) : Bool :=
  !e.item.itemIsEmpty &&
    (match previous with
     | none => true
     | some p => p.item.itemIsEmpty || decide (p.item.date.day ≠ e.item.date.day))

/-- `Element::setAttachToNext(attachToNext)`, returning the new state and
whether a repaint of the item was requested. -/
def Element.setAttachToNext (e : Element) (attachToNext : Bool) : Element × Bool :=
  if attachToNext && !e.flags.attachedToNext then
    ({ e with flags := { e.flags with attachedToNext := true } }, true)
  else if !attachToNext && e.flags.attachedToNext then
    ({ e with flags := { e.flags with attachedToNext := false } }, true)
  else
    (e, false)

/-- `Element::setAttachToPrevious(attachToPrevious)`, returning the new
state and whether `setPendingResize` was called. -/
def Element.setAttachToPrevious (e : Element) (attachToPrevious : Bool) :
    Element × Bool :=
  if attachToPrevious && !e.flags.attachedToPrevious then
    (Element.setPendingResize
      { e with flags := { e.flags with attachedToPrevious := true } }, true)
  else if !attachToPrevious && e.flags.attachedToPrevious then
    (Element.setPendingResize
      { e with flags := { e.flags with attachedToPrevious := false } }, true)
  else
    (e, false)

/-- `Element::recountAttachToPreviousInBlocks`, with the result of
`previousInBlocks()` passed explicitly. Returns the element and the
(updated) previous element. -/
def Element.recountAttachToPreviousInBlocks (e : Element)
    (previous : Option Element) : Element × Option Element :=
  match previous with
  | some p =>
      let attachToPrevious := computeIsAttachToPrevious e.item p.item
      let p1 := (p.setAttachToNext attachToPrevious).1
      ((e.setAttachToPrevious attachToPrevious).1, some p1)
  | none => ((e.setAttachToPrevious false).1, none)

/-- `TextSelection`: a pair of uint16 offsets. -/
structure TextSelection where
  fromOffset : Nat
  toOffset : Nat
deriving DecidableEq, Repr

/-- Modelled from the spec: the constant `FullSelection` is declared
outside the excerpt; the wrappers only compare against it, so only its
identity matters. Upstream it is the pair of maximal uint16 offsets. -/
def FullSelection : TextSelection := ⟨0xFFFF, 0xFFFF⟩

/-- `Text`: the excerpt reads only its `length()`. -/
structure Text where
  length : Nat
deriving DecidableEq, Repr

/-- `UnshiftItemSelection(selection, byLength)`, translated from the
source; `unshift` stands for the helper `::unshiftSelection`, which is
declared outside the excerpt and is therefore a parameter. -/
def UnshiftItemSelection (unshift : TextSelection → Nat → TextSelection)
    (selection : TextSelection) (byLength : Nat) : TextSelection :=
  if selection = FullSelection then selection else unshift selection byLength

/-- `ShiftItemSelection(selection, byLength)`, translated from the
source; `shift` stands for the helper `::shiftSelection`, declared
outside the excerpt. -/
def ShiftItemSelection (shift : TextSelection → Nat → TextSelection)
    (selection : TextSelection) (byLength : Nat) : TextSelection :=
  if selection = FullSelection then selection else shift selection byLength

/-- The `Text` overload of `UnshiftItemSelection`, translated from the
source. -/
def UnshiftItemSelectionText (unshift : TextSelection → Nat → TextSelection)
    (selection : TextSelection) (byText : Text) : TextSelection :=
  UnshiftItemSelection unshift selection byText.length

/-- The `Text` overload of `ShiftItemSelection`, translated from the
source. -/
def ShiftItemSelectionText (shift : TextSelection → Nat → TextSelection)
    (selection : TextSelection) (byText : Text) : TextSelection :=
  ShiftItemSelection shift selection byText.length

/-- A concrete message item used by witnesses and counterexamples. -/
def sampleItem : HistoryItem :=
  { dateComponent := none, hasUnreadBar := false, hasForwarded := false,
    itemIsPost := false, serviceMsg := false, itemIsEmpty := false,
    date := { secs := 1000, day := 3 }, senderOriginal := 1, fromId := 1,
    peerIsSelf := false, groupId := none, mediaTag := none }

/-- All-clear flag state used by witnesses and counterexamples. -/
def clearFlags : Flags :=
  { needsResize := false, attachedToPrevious := false,
    attachedToNext := false, hiddenByGroup := false }

/-- A concrete item carrying a non-null `groupId`. -/
def groupedItem : HistoryItem := { sampleItem with groupId := some 4 }

/-- A concrete empty (service-deleted) item. -/
def emptyItem : HistoryItem := { sampleItem with itemIsEmpty := true }

/-- A concrete element with no components and all flags clear. -/
def elemPlain : Element :=
  { id := 0, item := sampleItem, flags := clearFlags, group := none, media := none }

/-- A concrete element whose item is empty. -/
def elemEmptyItem : Element :=
  { id := 0, item := emptyItem, flags := clearFlags, group := none, media := none }

/-- A concrete element whose `Group` component is led by a third element
(`leader = 5`), with a non-empty `others` list and the hidden flag clear. -/
def elemForeignLeader : Element :=
  { id := 0, item := sampleItem, flags := clearFlags,
    group := some { groupId := 1, leader := 5, others := [7] }, media := none }

/-- A concrete element that leads its own group. -/
def elemOwnLeader : Element :=
  { id := 0, item := sampleItem, flags := clearFlags,
    group := some { groupId := 1, leader := 0, others := [5] }, media := none }

/-- A concrete element that leads its own group yet is marked hidden by
group. -/
def elemHiddenLeader : Element :=
  { id := 0, item := sampleItem,
    flags := { clearFlags with hiddenByGroup := true },
    group := some { groupId := 1, leader := 0, others := [] }, media := none }

end HistoryView

namespace Intro

/-- The index computed by `Intro::Widget::getStep(skip)` into
`_stepHistory`: `_stepHistory.size() - skip - 1`. -/
def getStepIndex (size skip : Int) : Int := size - skip - 1

/-- The asserted precondition of `getStep`:
`_stepHistory.size() + skip > 0`. -/
def getStepAssert (size skip : Int) : Prop := size + skip > 0

/-- The in-bounds condition for
`_stepHistory.at(getStepIndex size skip)`. -/
def getStepInBounds (size skip : Int) : Prop :=
  0 ≤ getStepIndex size skip ∧ getStepIndex size skip < size

end Intro

/-- C1: `computeIsAttachToPrevious(previous)` returns true exactly when
the element's item has neither a `HistoryMessageDate` nor a
`HistoryMessageUnreadBar` component, both items are non-post,
non-service, non-empty, the dates differ by strictly less than 900
seconds, and the sender condition holds; in all other cases it returns
false. -/
theorem computeIsAttachToPrevious_iff_spec
    (item prev : HistoryView.HistoryItem) :
    HistoryView.computeIsAttachToPrevious item prev = true ↔
      HistoryView.AttachToPreviousSpec item prev := by
  unfold HistoryView.computeIsAttachToPrevious HistoryView.AttachToPreviousSpec
  unfold HistoryView.kAttachMessageToPreviousSecondsDelta
  rcases item with ⟨dc, ub, fw, po, sm, em, da, so, fr, se, gi, mt⟩
  rcases prev with ⟨dc', ub', fw', po', sm', em', da', so', fr', se', gi', mt'⟩
  simp only [Option.isSome]
  cases dc <;> cases ub <;> cases po <;> cases po' <;>
    cases sm <;> cases sm' <;> cases em <;> cases em' <;> cases se <;>
    simp [Bool.and_eq_true, decide_eq_true_eq, beq_iff_eq]

/-- Witness for C1 at a concrete pair of items. -/
theorem computeIsAttachToPrevious_iff_spec_witness :
    HistoryView.computeIsAttachToPrevious
      HistoryView.sampleItem HistoryView.sampleItem = true :=
  (computeIsAttachToPrevious_iff_spec
      HistoryView.sampleItem HistoryView.sampleItem).mpr
    (by simp [HistoryView.AttachToPreviousSpec, HistoryView.sampleItem])

/-- C3: the asserted precondition of `Intro::Widget::getStep` does not
bound the access: at `_stepHistory.size() = 0`, `skip = 1` the assertion
`size + skip > 0` holds, yet the accessed index `size - skip - 1 = -2` is
out of bounds. (The assertion matches an index of `size + skip - 1`; for
the index `size - skip - 1` actually used, the guard would have to be
`size - skip > 0`.) -/
theorem getStep_assert_not_sufficient :
    Intro.getStepAssert 0 1 ∧ 0 ≤ (1 : Int) ∧ ¬ Intro.getStepInBounds 0 1 := by
  unfold Intro.getStepAssert Intro.getStepInBounds Intro.getStepIndex
  omega

/-- C8: `FullSelection` is a fixed point of both `UnshiftItemSelection`
and `ShiftItemSelection` for every `byLength` and every underlying shift
helper, and the `Text` overloads equal the uint16 overloads applied to
`byText.length()`. -/
theorem itemSelection_fullSelection_fixed_and_text_overloads
    (unshift shift : HistoryView.TextSelection → Nat → HistoryView.TextSelection)
    (byLength : Nat) (selection : HistoryView.TextSelection)
    (byText : HistoryView.Text) :
    HistoryView.UnshiftItemSelection unshift HistoryView.FullSelection byLength
        = HistoryView.FullSelection ∧
    HistoryView.ShiftItemSelection shift HistoryView.FullSelection byLength
        = HistoryView.FullSelection ∧
    HistoryView.UnshiftItemSelectionText unshift selection byText
        = HistoryView.UnshiftItemSelection unshift selection byText.length ∧
    HistoryView.ShiftItemSelectionText shift selection byText
        = HistoryView.ShiftItemSelection shift selection byText.length := by
  refine ⟨?_, ?_, rfl, rfl⟩ <;>
    simp [HistoryView.UnshiftItemSelection, HistoryView.ShiftItemSelection]

/-- C10: immediately after construction, an `Element` has a `Group`
component if and only if its item's `groupId()` is non-null, and when the
component is present the element is its own group leader and the group's
id equals the item's `groupId()`. -/
theorem element_construct_group_spec (n : Nat) (data : HistoryView.HistoryItem) :
    ((HistoryView.Element.construct n data).group.isSome ↔ data.groupId.isSome) ∧
    (∀ g, (HistoryView.Element.construct n data).group = some g →
      g.leader = n ∧ data.groupId = some g.groupId) := by
  unfold HistoryView.Element.construct HistoryView.Element.initGroup
  cases hd : data.groupId <;> simp [hd]

/-- Witness for C10 at a concrete item with `groupId = 4`. -/
theorem element_construct_group_spec_witness :
    ({ groupId := 4, leader := 7, others := [] } : HistoryView.Group).leader = 7 ∧
      HistoryView.groupedItem.groupId
        = some ({ groupId := 4, leader := 7, others := [] } : HistoryView.Group).groupId :=
  (element_construct_group_spec 7 HistoryView.groupedItem).2
    { groupId := 4, leader := 7, others := [] } (by rfl)

/-- C9 counterexample: on an element with all flags clear,
`setAttachToPrevious(true)` also flips the `NeedsResize` bit (through
`setPendingResize`), so a flag bit other than the one named changes. -/
theorem setAttachToPrevious_changes_needsResize :
    (HistoryView.elemPlain.setAttachToPrevious true).1.flags.needsResize
      ≠ HistoryView.elemPlain.flags.needsResize := by
  decide

/-- C9 (amended): `setAttachToNext(b)` sets the attached-to-next flag to
`b`, changes no other flag bit and no other field, and when the flag
already equals `b` it leaves the state unchanged and requests no repaint.
`setAttachToPrevious(b)` sets the attached-to-previous flag to `b` and,
when the flag changes, additionally sets the `NeedsResize` bit via
`setPendingResize`; the remaining flag bits and fields are unchanged, and
when the flag already equals `b` the state is unchanged and no resize is
marked. -/
theorem setAttachFlags_frame (e : HistoryView.Element) (b : Bool) :
    ((e.setAttachToNext b).1.flags.attachedToNext = b ∧
     (e.setAttachToNext b).1.flags.attachedToPrevious = e.flags.attachedToPrevious ∧
     (e.setAttachToNext b).1.flags.needsResize = e.flags.needsResize ∧
     (e.setAttachToNext b).1.flags.hiddenByGroup = e.flags.hiddenByGroup ∧
     (e.setAttachToNext b).1.item = e.item ∧
     (e.setAttachToNext b).1.group = e.group ∧
     (e.setAttachToNext b).1.media = e.media ∧
     (e.flags.attachedToNext = b → e.setAttachToNext b = (e, false))) ∧
    ((e.setAttachToPrevious b).1.flags.attachedToPrevious = b ∧
     (e.setAttachToPrevious b).1.flags.attachedToNext = e.flags.attachedToNext ∧
     (e.setAttachToPrevious b).1.flags.hiddenByGroup = e.flags.hiddenByGroup ∧
     (e.setAttachToPrevious b).1.flags.needsResize
        = (e.flags.needsResize || (e.setAttachToPrevious b).2) ∧
     (e.setAttachToPrevious b).1.item = e.item ∧
     (e.setAttachToPrevious b).1.group = e.group ∧
     (e.setAttachToPrevious b).1.media = e.media ∧
     (e.flags.attachedToPrevious = b → e.setAttachToPrevious b = (e, false))) := by
  rcases e with ⟨n, it, ⟨nr, ap, an, hg⟩, g, m⟩
  cases b <;> cases ap <;> cases an <;>
    simp [HistoryView.Element.setAttachToNext,
      HistoryView.Element.setAttachToPrevious,
      HistoryView.Element.setPendingResize]

/-- Witness for C9 at a concrete element whose flags already equal the
argument. -/
theorem setAttachFlags_frame_witness :
    HistoryView.elemPlain.setAttachToNext false = (HistoryView.elemPlain, false) :=
  (setAttachFlags_frame HistoryView.elemPlain false).1.2.2.2.2.2.2.2 (by rfl)

/-- C5: after `recountAttachToPreviousInBlocks`, when a previous element
exists its attached-to-next flag and this element's attached-to-previous
flag both equal `computeIsAttachToPrevious(previous)`; with no previous
element, this element's attached-to-previous flag is false. -/
theorem recountAttachToPreviousInBlocks_spec (e p : HistoryView.Element) :
    ((e.recountAttachToPreviousInBlocks none).1.flags.attachedToPrevious
        = false) ∧
    ((e.recountAttachToPreviousInBlocks none).2 = none) ∧
    ((e.recountAttachToPreviousInBlocks (some p)).1.flags.attachedToPrevious
        = HistoryView.computeIsAttachToPrevious e.item p.item) ∧
    (∃ p1, (e.recountAttachToPreviousInBlocks (some p)).2 = some p1 ∧
      p1.flags.attachedToNext
        = HistoryView.computeIsAttachToPrevious e.item p.item) := by
  unfold HistoryView.Element.recountAttachToPreviousInBlocks
  refine ⟨?_, rfl, ?_, ?_⟩
  · rcases e with ⟨n, it, ⟨nr, ap, an, hg⟩, g, m⟩
    cases ap <;>
      simp [HistoryView.Element.setAttachToPrevious,
        HistoryView.Element.setPendingResize]
  · rcases e with ⟨n, it, ⟨nr, ap, an, hg⟩, g, m⟩
    cases hb : HistoryView.computeIsAttachToPrevious it p.item <;> cases ap <;>
      simp [HistoryView.Element.setAttachToPrevious,
        HistoryView.Element.setPendingResize, hb]
  · refine ⟨_, rfl, ?_⟩
    rcases p with ⟨n, it, ⟨nr, ap, an, hg⟩, g, m⟩
    cases hb : HistoryView.computeIsAttachToPrevious e.item it <;> cases an <;>
      simp [HistoryView.Element.setAttachToNext, hb]

/-- C2 counterexample: with argument `leader = 2 ≠ this` and a `Group`
component present but led by a third element, `makeGroupMember` leaves
the element unhidden (and its `others` non-empty): the asserted
preconditions alone do not give the `Ensures`. -/
theorem makeGroupMember_ensures_fails :
    2 ≠ HistoryView.elemForeignLeader.id ∧
    HistoryView.elemForeignLeader.group.isSome = true ∧
    (HistoryView.elemForeignLeader.makeGroupMember 2).isHiddenByGroup = false := by
  decide

/-- C2 (amended): assuming additionally the group invariant that an
element which is not its own group leader is already hidden by group with
empty `others` — the state `makeGroupMember` itself establishes — the
asserted preconditions give the postconditions: the element is hidden by
group, its `others` vector is empty, and `group->leader` equals the given
leader. -/
theorem makeGroupMember_ensures (e : HistoryView.Element) (leader : Nat)
    (g : HistoryView.Group)
    (hne : leader ≠ e.id) (hg : e.group = some g)
    (hinv : g.leader ≠ e.id → e.flags.hiddenByGroup = true ∧ g.others = []) :
    (e.makeGroupMember leader).isHiddenByGroup = true ∧
    ∃ g1, (e.makeGroupMember leader).group = some g1 ∧
      g1.others = [] ∧ g1.leader = leader := by
  rcases e with ⟨n, it, fl, gf, m⟩
  simp only at hg hinv hne ⊢
  subst hg
  unfold HistoryView.Element.makeGroupMember
  simp only [HistoryView.Element.isHiddenByGroup]
  by_cases hl : g.leader = n
  · simp [hl]
  · have hrest := hinv (by simpa using hl)
    by_cases hll : g.leader = leader
    · simp [hl, hll, hne, hrest.1, hrest.2]
    · simp [hl, hll, hne, hrest.1, hrest.2]

/-- Witness for C2 at a concrete self-led element and `leader = 2`. -/
theorem makeGroupMember_ensures_witness :
    (HistoryView.elemOwnLeader.makeGroupMember 2).isHiddenByGroup = true ∧
    ∃ g1, (HistoryView.elemOwnLeader.makeGroupMember 2).group = some g1 ∧
      g1.others = [] ∧ g1.leader = 2 :=
  makeGroupMember_ensures HistoryView.elemOwnLeader 2
    { groupId := 1, leader := 0, others := [5] } (by decide) (by rfl) (by decide)

/-- C6 counterexample: on an element that already leads its group but is
marked hidden by group, `makeGroupLeader` returns with the element still
hidden: the `Ensures(!isHiddenByGroup())` does not follow from the
presence of the `Group` component alone. -/
theorem makeGroupLeader_ensures_fails :
    HistoryView.elemHiddenLeader.group.isSome = true ∧
    (HistoryView.elemHiddenLeader.makeGroupLeader []).isHiddenByGroup = true := by
  decide

/-- C6 (amended): assuming additionally the group invariant that an
element leading its own group is not hidden by group, after
`makeGroupLeader(others)`: `group->leader` is the element itself, the
element is not hidden by group, `group->others` equals the given vector,
and when the media cannot apply the group and the vector is non-empty the
media is replaced by a grouped-media view over the others. -/
theorem makeGroupLeader_spec (e : HistoryView.Element) (others : List Nat)
    (g : HistoryView.Group) (hg : e.group = some g)
    (hinv : g.leader = e.id → e.flags.hiddenByGroup = false) :
    ∃ g1, (e.makeGroupLeader others).group = some g1 ∧
      g1.leader = e.id ∧ g1.others = others ∧
      (e.makeGroupLeader others).isHiddenByGroup = false ∧
      (e.media.bind (HistoryView.Media.applyGroup · others) = none →
        others ≠ [] →
        (e.makeGroupLeader others).media
          = some (HistoryView.Media.grouped e.id others)) := by
  rcases e with ⟨n, it, fl, gf, m⟩
  simp only at hg hinv ⊢
  subst hg
  unfold HistoryView.Element.makeGroupLeader HistoryView.Element.resetGroupMedia
  simp only [HistoryView.Element.isHiddenByGroup]
  by_cases hl : g.leader = n
  · have hh := hinv (by simpa using hl)
    cases others with
    | nil =>
        cases ha : m.bind (HistoryView.Media.applyGroup · []) with
        | some applied => simp [hl, ha, hh]
        | none =>
            cases m with
            | none => simp [hl, ha, hh]
            | some mm => simp [hl, ha, hh]
    | cons a as =>
        cases ha : m.bind (HistoryView.Media.applyGroup · (a :: as)) with
        | some applied => simp [hl, ha, hh]
        | none => simp [hl, ha, hh]
  · cases others with
    | nil =>
        cases ha : m.bind (HistoryView.Media.applyGroup · []) with
        | some applied => simp [hl, ha]
        | none =>
            cases m with
            | none => simp [hl, ha]
            | some mm => simp [hl, ha]
    | cons a as =>
        cases ha : m.bind (HistoryView.Media.applyGroup · (a :: as)) with
        | some applied => simp [hl, ha]
        | none => simp [hl, ha]

/-- Witness for C6 at a concrete self-led element and a non-empty group. -/
theorem makeGroupLeader_spec_witness :
    ∃ g1, (HistoryView.elemOwnLeader.makeGroupLeader [3]).group = some g1 ∧
      g1.leader = HistoryView.elemOwnLeader.id ∧ g1.others = [3] ∧
      (HistoryView.elemOwnLeader.makeGroupLeader [3]).isHiddenByGroup = false ∧
      (HistoryView.elemOwnLeader.media.bind
          (HistoryView.Media.applyGroup · [3]) = none →
        [3] ≠ [] →
        (HistoryView.elemOwnLeader.makeGroupLeader [3]).media
          = some (HistoryView.Media.grouped HistoryView.elemOwnLeader.id [3])) :=
  makeGroupLeader_spec HistoryView.elemOwnLeader [3]
    { groupId := 1, leader := 0, others := [5] } (by rfl) (by decide)

/-- Helper: `setDisplayDate(d)` makes the `HistoryMessageDate` component
present exactly when `d`, touches the item only when the presence
actually changes (returning `true` exactly then), and sets the
`NeedsResize` flag exactly when it already was set or the presence
changed. -/
theorem setDisplayDate_behaviour (e : HistoryView.Element) (d : Bool) :
    ((e.setDisplayDate d).1.item.dateComponent.isSome = d) ∧
    ((e.setDisplayDate d).2 = (e.item.dateComponent.isSome != d)) ∧
    ((e.setDisplayDate d).2 = false → (e.setDisplayDate d).1 = e) ∧
    ((e.setDisplayDate d).1.flags.needsResize
        = (e.flags.needsResize || (e.setDisplayDate d).2)) := by
  rcases e with ⟨n, ⟨dc, ub, fw, po, sm, em, da, so, fr, se, gi, mt⟩,
    ⟨nr, ap, an, hg⟩, g, m⟩
  cases d <;> cases dc <;>
    simp [HistoryView.Element.setDisplayDate, HistoryView.Element.setPendingResize]

/-- C4: `recountDisplayDateInBlocks` makes the date separator present
exactly when the item is non-empty and either no previous element exists,
or the previous item is empty, or the calendar dates differ;
`setDisplayDate` changes the item only when the presence changes, and
marks a pending resize exactly in those cases. -/
theorem recountDisplayDateInBlocks_spec (e : HistoryView.Element)
    (previous : Option HistoryView.Element) :
    ((e.recountDisplayDateInBlocks previous).1.item.dateComponent.isSome
        = HistoryView.DisplayDateSpec e previous) ∧
    ((e.recountDisplayDateInBlocks previous).2
        = (e.item.dateComponent.isSome != HistoryView.DisplayDateSpec e previous)) ∧
    ((e.recountDisplayDateInBlocks previous).2 = false →
      (e.recountDisplayDateInBlocks previous).1 = e) ∧
    ((e.recountDisplayDateInBlocks previous).1.flags.needsResize
        = (e.flags.needsResize || (e.recountDisplayDateInBlocks previous).2)) := by
  have harg :
      (if e.item.itemIsEmpty then false
       else
         match previous with
         | some p => p.item.itemIsEmpty || decide (p.item.date.day ≠ e.item.date.day)
         | none => true) = HistoryView.DisplayDateSpec e previous := by
    unfold HistoryView.DisplayDateSpec
    cases he : e.item.itemIsEmpty <;> cases previous <;> simp [he]
  unfold HistoryView.Element.recountDisplayDateInBlocks
  rw [harg]
  exact setDisplayDate_behaviour e (HistoryView.DisplayDateSpec e previous)

/-- Witness for C4 at a concrete element whose empty item needs no
separator, so nothing changes and no resize is marked. -/
theorem recountDisplayDateInBlocks_spec_witness :
    (HistoryView.elemEmptyItem.recountDisplayDateInBlocks none).1
      = HistoryView.elemEmptyItem :=
  (recountDisplayDateInBlocks_spec HistoryView.elemEmptyItem none).2.2.1 (by rfl)
